import Mathlib

/-!
Verification development for the yummyDSP `AudioDriver` component
(`src/AudioDriver.cpp`): an ESP32 I2S audio transport layer with a
fixed-point/floating-point sample codec.

Modelling conventions:
* C `float` values are embedded as exact rationals (`ℚ`).  Every float
  operation the codec performs on in-range data is exact in IEEE-754
  binary32 — multiplication by the powers of two `2^23` and `2^-31` only
  shifts the exponent, and the `+ 1` in the rounding branch is exact for
  all values whose truncation survives the subsequent clamp — so the
  rational model agrees with the float semantics on the whole domain of
  interest.  The one genuinely lossy float step, the `int32 → float`
  conversion inside `int2Float`, is modelled explicitly as rounding to a
  24-bit significand (`floatOfInt32`).
* C `int32_t` values are embedded as `ℤ`.  The shift `y << 8` is applied
  to a value already clamped into `[-2^23, 2^23-1]`, so it never
  overflows the 32-bit container and is modelled as `* 2^8`.
* The external ESP-IDF I2S driver is an oracle (`I2SEnv`) supplying the
  status codes and byte counts of each driver call; the calls the
  component makes, with the arguments it passes, are recorded in a trace
  (`I2SCall`) so that theorems can speak about what reaches the driver.
-/

/-- Arduino's `constrain(amt, low, high)` macro:
`(amt < low) ? low : ((amt > high) ? high : amt)`. -/
def constrain (amt low high : ℤ) : ℤ :=
  if amt < low then low else if amt > high then high else amt

/-- Truncation of a rational toward zero, the semantics of C's
`(int32_t)` cast from `float`. -/
def ratTrunc (q : ℚ) : ℤ :=
  if 0 ≤ q then ⌊q⌋ else ⌈q⌉

/-- Round a rational to the nearest integer, ties to even — the IEEE-754
default rounding used by the `int32 → float` conversion. -/
def rne (q : ℚ) : ℤ :=
  if q - ⌊q⌋ < 1 / 2 then ⌊q⌋
  else if 1 / 2 < q - ⌊q⌋ then ⌊q⌋ + 1
  else if 2 ∣ ⌊q⌋ then ⌊q⌋ else ⌊q⌋ + 1

/-- The binary exponent of the unit in the last place of a binary32 float
holding the integer `n`: integers of magnitude up to `2^24` are exact,
larger ones are represented at granularity `2^(log2 |n| - 23)`. -/
def floatUlpExp (n : ℤ) : ℕ :=
  if n.natAbs ≤ 2 ^ 24 then 0 else n.natAbs.log2 - 23

/-- The binary32 value produced by C's implicit `int32 → float`
conversion: `n` rounded to nearest (ties to even) at its ulp. -/
def floatOfInt32 (n : ℤ) : ℤ :=
  rne ((n : ℚ) / 2 ^ floatUlpExp n) * 2 ^ floatUlpExp n

namespace AudioDriver

/-- `AudioDriver::ScaleFloat2Int = 8388608.f`, exactly `2^23`. -/
def ScaleFloat2Int : ℚ := 8388608

/-- `AudioDriver::ScaleInt2Float = 0.0000000004656612873077392578125f`,
exactly `2^-31` (the decimal literal in the source is the exact decimal
expansion of `2^-31`). -/
def ScaleInt2Float : ℚ := 1 / 2147483648

end AudioDriver

/-- `int2Float` from `AudioDriver.cpp`:
`return (float)(sample * AudioDriver::ScaleInt2Float);`.
The `int32_t` argument is first converted to `float` (possibly rounding
to 24 significand bits, modelled by `floatOfInt32`); the multiplication
by the power of two `2^-31` is then exact (exponent shift, no underflow
for any int32 input). -/
def int2Float (sample : ℤ) : ℚ :=
  (floatOfInt32 sample : ℚ) * AudioDriver.ScaleInt2Float

/-- `float2Int` from `AudioDriver.cpp`:
```
sample *= AudioDriver::ScaleFloat2Int;
int32_t y = (int32_t)(sample >= 0.5)? sample+1 : sample;
y = constrain(y, -AudioDriver::ScaleFloat2Int, AudioDriver::ScaleFloat2Int-1);
return y << 8;
```
The cast in the second line binds to the comparison, so the line reads
`(sample >= 0.5) ? sample+1 : sample`, converted to `int32_t` by the
assignment, i.e. truncated toward zero.  The float bounds of `constrain`
(`-8388608.f`, `8388607.f`) compare exactly against every reachable `y`,
so the clamp is modelled on `ℤ`; the final `y << 8` of the clamped value
never overflows int32 and is `* 2^8`. -/
def float2Int (sample : ℚ) : ℤ :=
  let scaled := sample * AudioDriver.ScaleFloat2Int
  let y : ℤ := if scaled ≥ 1 / 2 then ratTrunc (scaled + 1) else ratTrunc scaled
  let y2 := constrain y (-(2 ^ 23)) (2 ^ 23 - 1)
  y2 * 2 ^ 8

/-- The spec's description of `toWire`, written from its words: scale by
`2^23`; if `scaled ≥ 0.5` add 1 before truncation toward zero, otherwise
truncate toward zero; clamp the truncated integer into
`[-2^23, 2^23-1]`; left-shift the clamped value by 8 bits.  Kept as a
separate definition so that `float2Int` (translated from the source) can
be proved to refine it. -/
def spec_toWire (x : ℚ) : ℤ :=
  let scaled := x * 2 ^ 23
  let t : ℤ := if scaled ≥ 1 / 2 then ratTrunc (scaled + 1) else ratTrunc scaled
  let clamped := max (-(2 ^ 23)) (min t (2 ^ 23 - 1))
  clamped * 2 ^ 8

/-- ESP-IDF `i2s_port_t` lower bound `I2S_NUM_0` (external enum, value 0). -/
def I2S_NUM_0 : ℤ := 0

/-- ESP-IDF `i2s_port_t` upper bound `I2S_NUM_MAX` (external enum, value 2
on the ESP32 target, which has ports 0 and 1). -/
def I2S_NUM_MAX : ℤ := 2

namespace AudioDriver

/-- Modelled from the spec: `AudioDriver::BufferSize`, the compile-time
per-block frame count declared in `AudioDriver.h`, which is not part of
the given sources.  The spec calls it "a fixed per-block frame count
(`BufferSize`, a compile-time constant)" and its end-to-end scenario
fixes it at 64 frames. -/
def BufferSize : ℤ := 64

end AudioDriver

/-- The invocation-dependent fields of the `i2s_config_t` literal built
inside `AudioDriver::setup`, together with its numeric literal fields.
The remaining fields of the C struct (`mode`, `channel_format`,
`communication_format`, `intr_alloc_flags`) are filled from fixed
external ESP-IDF enum constants that never vary between invocations and
are elided. -/
structure I2SConfig where
  sampleRate : ℤ
  bitsPerSample : ℤ
  dmaBufCount : ℤ
  dmaBufLen : ℤ
  useApll : Bool
  txDescAutoClear : Bool
  fixedMclk : ℤ
deriving DecidableEq

/-- The `i2s_pin_config_t` literal built inside `AudioDriver::setup`. -/
structure I2SPinConfig where
  bckIoNum : ℤ
  wsIoNum : ℤ
  dataOutNum : ℤ
  dataInNum : ℤ
deriving DecidableEq

/-- The function-local `static const` storage of `AudioDriver::setup`:
each struct is dynamically initialized the first time control passes its
declaration and keeps that value for every later invocation. -/
structure StaticState where
  i2sConfig : Option I2SConfig
  pinConfig : Option I2SPinConfig
deriving DecidableEq

/-- The static storage before `setup` has ever run. -/
def initStatics : StaticState := ⟨none, none⟩

/-- Oracle for the external ESP-IDF I2S driver: the status codes it
returns for each call `setup` makes, and the outcome of one blocking
read (status, bytes delivered, delivered samples) and one blocking write
(status, bytes accepted). -/
structure I2SEnv where
  installStatus : ℤ
  setPinStatus : ℤ
  setRateStatus : ℤ
  zeroDmaStatus : ℤ
  readStatus : ℤ
  readBytes : ℕ
  readData : List ℤ
  writeStatus : ℤ
  writeBytes : ℕ

/-- One call made to the external transport driver, with the arguments
the component passes. -/
inductive I2SCall where
  | driverInstall (port : ℤ) (cfg : I2SConfig)
  | setPin (port : ℤ) (pins : I2SPinConfig)
  | setSampleRates (port : ℤ) (rate : ℤ)
  | zeroDmaBuffer (port : ℤ)
  | i2sRead (port : ℤ) (byteLen : ℤ) (timeoutMs : ℤ)
  | i2sWrite (port : ℤ) (byteLen : ℤ) (timeoutMs : ℤ)
deriving DecidableEq

/-- The hardware-instance selector a driver call is addressed to. -/
def callPort : I2SCall → ℤ
  | .driverInstall p _ => p
  | .setPin p _ => p
  | .setSampleRates p _ => p
  | .zeroDmaBuffer p => p
  | .i2sRead p _ _ => p
  | .i2sWrite p _ _ => p

/-- The `i2s_config_t` literal of `AudioDriver::setup` as a function of
the two invocation-dependent values `fs` and `mclk_rate`:
`.sample_rate = fs`, `.bits_per_sample = I2S_BITS_PER_SAMPLE_24BIT`,
`.dma_buf_count = 2`, `.dma_buf_len = AudioDriver::BufferSize`,
`.use_apll = true`, `.tx_desc_auto_clear = true`,
`.fixed_mclk = mclk_rate`. -/
def mkI2sConfig (fs mclkRate : ℤ) : I2SConfig :=
  { sampleRate := fs
    bitsPerSample := 24
    dmaBufCount := 2
    dmaBufLen := AudioDriver.BufferSize
    useApll := true
    txDescAutoClear := true
    fixedMclk := mclkRate }

/-- The object state of the C++ `AudioDriver` class: the fields
`AudioDriver::setup` assigns, with each sample buffer modelled by its
contents (a list of 32-bit samples). -/
structure AudioDriver where
  fs : ℤ
  channelCount : ℤ
  i2sPort : ℤ
  enablePin : ℤ
  i2sBufferSize : ℤ
  i2sReadBuffer : List ℤ
  i2sWriteBuffer : List ℤ
deriving DecidableEq

/-- Everything `AudioDriver::setup` produces: the object state, the
updated function-local static storage, the returned aggregate status,
and the trace of transport-driver calls made. -/
structure SetupResult where
  state : AudioDriver
  statics : StaticState
  status : ℤ
  calls : List I2SCall
deriving DecidableEq

/-- Result of `readBlock`/`writeBlock`: the object state afterwards, the
returned status, whether the `Serial.print` diagnostic was emitted, and
the driver call made. -/
structure IOResult where
  state : AudioDriver
  status : ℤ
  diagnostic : Bool
  call : I2SCall
deriving DecidableEq

/-- Overwrite the front of `buf` with `newData`, keeping the stale tail:
the effect of the driver delivering `newData.length` samples into a
buffer of fixed capacity `buf.length`. -/
def overwriteFront (buf newData : List ℤ) : List ℤ :=
  newData.take buf.length ++ buf.drop newData.length

namespace AudioDriver

/-- `AudioDriver::setup` from `AudioDriver.cpp`.  Stores `fs` and
`channelCount`; clamps the `i2s_port` selector with
`constrain(i2s_port, I2S_NUM_0, I2S_NUM_MAX)`; stores `enablePin`
(the GPIO `pinMode`/`digitalWrite` side effects, the one-time master
clock pin MUX writes and the fixed 500 ms settle `delay` are external
hardware effects outside the driver-call trace and are elided); computes
`mclk_rate = fs * 384`; initializes the two function-local `static
const` structs on first pass only; calls `i2s_driver_install`,
`i2s_set_pin`, `i2s_set_sample_rates`, `i2s_zero_dma_buffer`, summing
their statuses in `err`; allocates the two sample buffers with
`calloc(channelCount * BufferSize, 4)` (zero-initialized); returns
`err`. -/
def setup (statics : StaticState) (env : I2SEnv)
    (fs channelCount bitClkPin lrClkPin dataOutPin dataInPin enablePin i2s_port : ℤ) :
    SetupResult :=
  let i2sPort := constrain i2s_port I2S_NUM_0 I2S_NUM_MAX
  let mclk_rate := fs * 384
  let i2s_config := statics.i2sConfig.getD (mkI2sConfig fs mclk_rate)
  let pin_config := statics.pinConfig.getD ⟨bitClkPin, lrClkPin, dataOutPin, dataInPin⟩
  let err := env.installStatus + env.setPinStatus + env.setRateStatus + env.zeroDmaStatus
  let i2sBufferSize := channelCount * BufferSize
  { state :=
      { fs := fs
        channelCount := channelCount
        i2sPort := i2sPort
        enablePin := enablePin
        i2sBufferSize := i2sBufferSize
        i2sReadBuffer := List.replicate i2sBufferSize.toNat 0
        i2sWriteBuffer := List.replicate i2sBufferSize.toNat 0 }
    statics := { i2sConfig := some i2s_config, pinConfig := some pin_config }
    status := err
    calls :=
      [ .driverInstall i2sPort i2s_config
      , .setPin i2sPort pin_config
      , .setSampleRates i2sPort fs
      , .zeroDmaBuffer i2sPort ] }

/-- `AudioDriver::readBlock`:
`i2s_read(i2sPort, i2sReadBuffer, i2sBufferSize * sizeof(int32_t),
&bytesRead, 500)`; the driver overwrites the first `bytesRead` bytes
(`bytesRead / 4` whole samples) of the read buffer; the diagnostic is
printed iff `err` is non-zero or fewer bytes than requested arrived
(the C comparison `bytesRead < i2sBufferSize * 4` between the unsigned
count and the positive request is modelled on `ℤ`); returns `err`. -/
def readBlock (st : AudioDriver) (env : I2SEnv) : IOResult :=
  let byteLen := st.i2sBufferSize * 4
  let err := env.readStatus
  { state := { st with
      i2sReadBuffer := overwriteFront st.i2sReadBuffer (env.readData.take (env.readBytes / 4)) }
    status := err
    diagnostic := decide (err ≠ 0) || decide ((env.readBytes : ℤ) < byteLen)
    call := .i2sRead st.i2sPort byteLen 500 }

/-- `AudioDriver::writeBlock`:
`i2s_write(i2sPort, i2sWriteBuffer, channelCount * BufferSize *
sizeof(int32_t), &bytesWritten, 500)`; the diagnostic is printed iff
`bytesWritten < 1`, i.e. zero bytes were accepted (`bytesWritten` is
unsigned); no object field is modified; returns `err`. -/
def writeBlock (st : AudioDriver) (env : I2SEnv) : IOResult :=
  let byteLen := st.channelCount * BufferSize * 4
  { state := st
    status := env.writeStatus
    diagnostic := decide (env.writeBytes < 1)
    call := .i2sWrite st.i2sPort byteLen 500 }

end AudioDriver

/-- An all-zero driver oracle, used to instantiate theorems with
hypotheses at concrete inputs. -/
def env0 : I2SEnv :=
  { installStatus := 0, setPinStatus := 0, setRateStatus := 0, zeroDmaStatus := 0
    readStatus := 0, readBytes := 0, readData := [], writeStatus := 0, writeBytes := 0 }

/-! ## Helper lemmas -/

theorem constrain_eq_max_min (a lo hi : ℤ) (h : lo ≤ hi) :
    constrain a lo hi = max lo (min a hi) := by
  unfold constrain
  split_ifs <;> omega

theorem constrain_lb (a lo hi : ℤ) (h : lo ≤ hi) : lo ≤ constrain a lo hi := by
  unfold constrain
  split_ifs <;> omega

theorem constrain_ub (a lo hi : ℤ) (h : lo ≤ hi) : constrain a lo hi ≤ hi := by
  unfold constrain
  split_ifs <;> omega

theorem constrain_of_mem (a lo hi : ℤ) (h1 : lo ≤ a) (h2 : a ≤ hi) :
    constrain a lo hi = a := by
  unfold constrain
  split_ifs <;> omega

theorem rne_intCast (m : ℤ) : rne (m : ℚ) = m := by
  unfold rne
  rw [Int.floor_intCast]
  norm_num

theorem floatUlpExp_le_eight {n : ℤ} (h : n.natAbs ≤ 2 ^ 31) : floatUlpExp n ≤ 8 := by
  unfold floatUlpExp
  split
  · omega
  · rename_i hgt
    have h0 : n.natAbs ≠ 0 := by omega
    have hlt : n.natAbs.log2 < 32 := (Nat.log2_lt h0).mpr (by omega)
    omega

/-- A 32-bit value divisible by the power of two at its ulp is
represented exactly by the `int32 → float` conversion. -/
theorem floatOfInt32_exact (n : ℤ) (h : (2 : ℤ) ^ floatUlpExp n ∣ n) :
    floatOfInt32 n = n := by
  unfold floatOfInt32
  set E := floatUlpExp n with hE
  obtain ⟨m, hm⟩ := h
  have hpow : ((2 : ℚ) ^ E) ≠ 0 := by positivity
  have hcast : (n : ℚ) = (m : ℚ) * 2 ^ E := by
    rw [hm]; push_cast; ring
  have hq : ((n : ℚ) / 2 ^ E) = (m : ℚ) := by
    rw [hcast, mul_div_assoc, div_self hpow, mul_one]
  rw [hq, rne_intCast, hm]
  ring

/-- Every wire-format sample — a 24-bit magnitude left-shifted by 8 —
survives the `int32 → float` conversion exactly, so `int2Float` is pure
scaling on such samples. -/
theorem int2Float_wireExact (m : ℤ) (h1 : -(2 ^ 23) ≤ m) (h2 : m ≤ 2 ^ 23 - 1) :
    int2Float (m * 2 ^ 8) = (m : ℚ) / 2 ^ 23 := by
  have habs : (m * 2 ^ 8).natAbs ≤ 2 ^ 31 := by
    have : (m * 2 ^ 8).natAbs = m.natAbs * 2 ^ 8 := by
      rw [Int.natAbs_mul]; norm_num
    omega
  have hdvd : (2 : ℤ) ^ floatUlpExp (m * 2 ^ 8) ∣ m * 2 ^ 8 :=
    dvd_mul_of_dvd_right (pow_dvd_pow 2 (floatUlpExp_le_eight habs)) m
  rw [int2Float, floatOfInt32_exact _ hdvd, AudioDriver.ScaleInt2Float]
  push_cast
  field_simp
  ring

/-- `float2Int` unfolded to its clamp-and-shift form. -/
theorem float2Int_eq (x : ℚ) :
    float2Int x =
      constrain
        (if x * AudioDriver.ScaleFloat2Int ≥ 1 / 2
          then ratTrunc (x * AudioDriver.ScaleFloat2Int + 1)
          else ratTrunc (x * AudioDriver.ScaleFloat2Int))
        (-(2 ^ 23)) (2 ^ 23 - 1) * 2 ^ 8 := rfl

/-- The clamped rounding step of `float2Int` stays within distance 1 of
the scaled sample whenever the sample lies in the nominal domain. -/
theorem clamped_round_close (s : ℚ) (hs1 : -(2 ^ 23) ≤ s) (hs2 : s < 2 ^ 23) :
    |((constrain (if s ≥ 1 / 2 then ratTrunc (s + 1) else ratTrunc s)
        (-(2 ^ 23)) (2 ^ 23 - 1) : ℤ) : ℚ) - s| ≤ 1 := by
  by_cases hge : s ≥ 1 / 2
  · rw [if_pos hge]
    have hs0 : (0 : ℚ) ≤ s + 1 := by linarith
    rw [ratTrunc, if_pos hs0]
    have hfe : ⌊s + 1⌋ = ⌊s⌋ + 1 := by
      rw [show s + 1 = s + ((1 : ℤ) : ℚ) by push_cast; ring, Int.floor_add_int]
    rw [hfe]
    have hfl : ⌊s⌋ < 2 ^ 23 := Int.floor_lt.mpr (by push_cast; linarith)
    have hf0 : 0 ≤ ⌊s⌋ := Int.floor_nonneg.mpr (by linarith)
    have l1 := Int.floor_le s
    have l2 := Int.lt_floor_add_one s
    by_cases hc : ⌊s⌋ + 1 ≤ 2 ^ 23 - 1
    · rw [constrain_of_mem _ _ _ (by omega) hc]
      rw [abs_of_nonneg (by push_cast; linarith)]
      push_cast
      push_cast at l1
      linarith
    · have hfeq : ⌊s⌋ = 2 ^ 23 - 1 := by omega
      have : constrain (⌊s⌋ + 1) (-(2 ^ 23)) (2 ^ 23 - 1) = 2 ^ 23 - 1 := by
        unfold constrain
        split_ifs <;> omega
      rw [this]
      rw [hfeq] at l1
      push_cast at l1
      rw [abs_of_nonpos (by push_cast; linarith)]
      push_cast
      linarith
  · rw [if_neg hge]
    push_neg at hge
    by_cases h0 : (0 : ℚ) ≤ s
    · rw [ratTrunc, if_pos h0]
      have hfl0 : ⌊s⌋ = 0 := Int.floor_eq_zero_iff.mpr ⟨h0, by linarith⟩
      rw [hfl0, constrain_of_mem _ _ _ (by norm_num) (by norm_num)]
      rw [abs_of_nonpos (by push_cast; linarith)]
      push_cast
      linarith
    · push_neg at h0
      rw [ratTrunc, if_neg (not_le.mpr h0)]
      have hc1 := Int.le_ceil s
      have hc2 := Int.ceil_lt_add_one s
      have hlo : -(2 ^ 23) ≤ ⌈s⌉ := by
        have : ((-(2 ^ 23) : ℤ) : ℚ) ≤ (⌈s⌉ : ℚ) := by push_cast; linarith
        exact_mod_cast this
      have hhi : ⌈s⌉ ≤ 2 ^ 23 - 1 := by
        have : ⌈s⌉ ≤ 0 := Int.ceil_le.mpr (by push_cast; linarith)
        omega
      rw [constrain_of_mem _ _ _ hlo hhi]
      rw [abs_of_nonneg (by linarith)]
      linarith

/-- Any sample at or below the bottom of the nominal domain is clamped
to the minimum wire value. -/
theorem float2Int_clamp_bottom (x : ℚ) (h : x ≤ -1) :
    float2Int x = -(2 ^ 23) * 2 ^ 8 := by
  rw [float2Int_eq]
  have hSF : AudioDriver.ScaleFloat2Int = ((2 : ℚ) ^ 23) := by
    norm_num [AudioDriver.ScaleFloat2Int]
  have hs : x * AudioDriver.ScaleFloat2Int ≤ -(2 ^ 23) := by
    rw [hSF]
    nlinarith
  rw [if_neg (by intro hcon; simp only [ge_iff_le] at hcon; linarith)]
  rw [ratTrunc, if_neg (by intro hcon; linarith)]
  have hceil : ⌈x * AudioDriver.ScaleFloat2Int⌉ ≤ -(2 ^ 23) :=
    Int.ceil_le.mpr (by push_cast; linarith)
  have : constrain ⌈x * AudioDriver.ScaleFloat2Int⌉ (-(2 ^ 23)) (2 ^ 23 - 1) = -(2 ^ 23) := by
    unfold constrain
    split_ifs <;> omega
  rw [this]

/-! ## Claim theorems: sample codec -/

/-- C1: for every host-format sample `x`, `toWire` (`float2Int`)
computes its result by exactly the spec's algorithm — scale by `2^23`,
add 1 before truncation toward zero when `scaled ≥ 0.5` and truncate
toward zero otherwise, clamp into `[-2^23, 2^23-1]`, shift left by
8 bits (`spec_toWire`) — and consequently the output never exceeds
`(2^23 - 1) << 8` and `toWire(-2.0) = (-2^23) << 8`. -/
theorem float2Int_follows_spec_algorithm :
    (∀ x : ℚ, float2Int x = spec_toWire x ∧ float2Int x ≤ (2 ^ 23 - 1) * 2 ^ 8) ∧
    float2Int (-2) = -(2 ^ 23) * 2 ^ 8 := by
  have hSF : AudioDriver.ScaleFloat2Int = ((2 : ℚ) ^ 23) := by
    norm_num [AudioDriver.ScaleFloat2Int]
  refine ⟨fun x => ⟨?_, ?_⟩, ?_⟩
  · rw [float2Int_eq, hSF]
    simp only [spec_toWire]
    rw [constrain_eq_max_min _ _ _ (by norm_num)]
  · rw [float2Int_eq]
    exact mul_le_mul_of_nonneg_right (constrain_ub _ _ _ (by norm_num)) (by norm_num)
  · exact float2Int_clamp_bottom (-2) (by norm_num)

/-- C3: for every host sample in `[-1.0, 1.0)` the round trip
`toFloat (toWire x)` differs from `x` by at most one quantization step
`2^-23` (the bound holds on the whole domain, including the clamped
region at the upper boundary). -/
theorem roundTrip_within_quantization_step (x : ℚ) (h1 : -1 ≤ x) (h2 : x < 1) :
    |int2Float (float2Int x) - x| ≤ 1 / 2 ^ 23 := by
  have hSF : AudioDriver.ScaleFloat2Int = ((2 : ℚ) ^ 23) := by
    norm_num [AudioDriver.ScaleFloat2Int]
  have hs1 : -(2 ^ 23) ≤ x * AudioDriver.ScaleFloat2Int := by rw [hSF]; nlinarith
  have hs2 : x * AudioDriver.ScaleFloat2Int < 2 ^ 23 := by rw [hSF]; nlinarith
  have hkey := clamped_round_close (x * AudioDriver.ScaleFloat2Int) hs1 hs2
  rw [float2Int_eq x,
    int2Float_wireExact _ (constrain_lb _ _ _ (by norm_num)) (constrain_ub _ _ _ (by norm_num))]
  set c := constrain
      (if x * AudioDriver.ScaleFloat2Int ≥ 1 / 2
        then ratTrunc (x * AudioDriver.ScaleFloat2Int + 1)
        else ratTrunc (x * AudioDriver.ScaleFloat2Int))
      (-(2 ^ 23)) (2 ^ 23 - 1) with hcdef
  have hrw : (c : ℚ) / 2 ^ 23 - x = ((c : ℚ) - x * AudioDriver.ScaleFloat2Int) / 2 ^ 23 := by
    rw [hSF]
    field_simp
    ring
  rw [hrw, abs_div, abs_of_pos (show (0 : ℚ) < 2 ^ 23 by norm_num)]
  gcongr

/-- Witness for C3 at the concrete sample `x = 1/4`. -/
theorem roundTrip_within_quantization_step_witness :
    |int2Float (float2Int (1 / 4)) - 1 / 4| ≤ 1 / 2 ^ 23 :=
  roundTrip_within_quantization_step (1 / 4) (by norm_num) (by norm_num)

/-- C4: `toFloat` (`int2Float`) is total over the whole 32-bit signed
domain (it is a Lean function, with no error outcome), and on every
wire-format sample — a 32-bit value with its low 8 bits zero — it is the
exact pure scaling `w × 2^-31`: such values carry at most 24 significant
bits, so the `int32 → float` conversion inside is exact. -/
theorem int2Float_pure_scaling (w : ℤ) (h1 : -(2 ^ 31) ≤ w) (h2 : w < 2 ^ 31)
    (h3 : (2 : ℤ) ^ 8 ∣ w) : int2Float w = (w : ℚ) / 2 ^ 31 := by
  obtain ⟨m, hm⟩ := h3
  subst hm
  have hm1 : -(2 ^ 23) ≤ m := by omega
  have hm2 : m ≤ 2 ^ 23 - 1 := by omega
  have hw := int2Float_wireExact m hm1 hm2
  rw [mul_comm] at hw
  rw [hw]
  push_cast
  field_simp
  ring

/-- Witness for C4 at the most negative wire sample `w = -2^31`. -/
theorem int2Float_pure_scaling_witness :
    int2Float (-(2 ^ 31)) = ((-(2 ^ 31) : ℤ) : ℚ) / 2 ^ 31 :=
  int2Float_pure_scaling (-(2 ^ 31)) (by norm_num) (by norm_num)
    ⟨-(2 ^ 23), by norm_num⟩

/-! ## Claim theorems: transport configurator and block I/O -/

/-- C2: `setup` never fails on account of the instance selector — its
status is the same for every selector, in range or not — and the
selector it stores and passes to every transport-driver call it makes,
and that every subsequent `readBlock`/`writeBlock` call addresses, is
the input clamped into `[I2S_NUM_0, I2S_NUM_MAX]`. -/
theorem setup_clamps_instance
    (env envR envW : I2SEnv) (fs c b l dOut dIn e p q : ℤ) :
    (AudioDriver.setup initStatics env fs c b l dOut dIn e p).state.i2sPort
        = constrain p I2S_NUM_0 I2S_NUM_MAX ∧
    I2S_NUM_0 ≤ constrain p I2S_NUM_0 I2S_NUM_MAX ∧
    constrain p I2S_NUM_0 I2S_NUM_MAX ≤ I2S_NUM_MAX ∧
    (AudioDriver.setup initStatics env fs c b l dOut dIn e p).status
        = (AudioDriver.setup initStatics env fs c b l dOut dIn e q).status ∧
    ((AudioDriver.setup initStatics env fs c b l dOut dIn e p).calls.map callPort)
        = List.replicate 4 (constrain p I2S_NUM_0 I2S_NUM_MAX) ∧
    callPort (AudioDriver.readBlock
        (AudioDriver.setup initStatics env fs c b l dOut dIn e p).state envR).call
        = constrain p I2S_NUM_0 I2S_NUM_MAX ∧
    callPort (AudioDriver.writeBlock
        (AudioDriver.setup initStatics env fs c b l dOut dIn e p).state envW).call
        = constrain p I2S_NUM_0 I2S_NUM_MAX :=
  ⟨rfl, constrain_lb _ _ _ (by decide), constrain_ub _ _ _ (by decide),
    rfl, rfl, rfl, rfl⟩

/-- C5: `setup` returns the sum of the status codes of its four
transport sub-steps (install, pin bind, sample-rate set, DMA-buffer
zero); all-zero sub-steps yield zero, and a non-zero result implies at
least one sub-step returned non-zero. -/
theorem setup_status_is_sum (env : I2SEnv) (fs c b l dOut dIn e p : ℤ) :
    (AudioDriver.setup initStatics env fs c b l dOut dIn e p).status
        = env.installStatus + env.setPinStatus + env.setRateStatus + env.zeroDmaStatus ∧
    (env.installStatus = 0 ∧ env.setPinStatus = 0 ∧ env.setRateStatus = 0 ∧
        env.zeroDmaStatus = 0 →
      (AudioDriver.setup initStatics env fs c b l dOut dIn e p).status = 0) ∧
    ((AudioDriver.setup initStatics env fs c b l dOut dIn e p).status ≠ 0 →
      env.installStatus ≠ 0 ∨ env.setPinStatus ≠ 0 ∨ env.setRateStatus ≠ 0 ∨
        env.zeroDmaStatus ≠ 0) := by
  have hst : (AudioDriver.setup initStatics env fs c b l dOut dIn e p).status
      = env.installStatus + env.setPinStatus + env.setRateStatus + env.zeroDmaStatus := rfl
  refine ⟨hst, ?_, ?_⟩
  · rintro ⟨h1, h2, h3, h4⟩
    rw [hst]
    omega
  · intro h
    rw [hst] at h
    by_contra hcon
    push_neg at hcon
    exact h (by omega)

/-- Witness for C5: an all-successful driver oracle yields status 0. -/
theorem setup_status_is_sum_witness :
    (AudioDriver.setup initStatics env0 48000 2 26 25 14 13 27 0).status = 0 :=
  (setup_status_is_sum env0 48000 2 26 25 14 13 27 0).2.1 ⟨rfl, rfl, rfl, rfl⟩

/-- C6: in the configured state — any state produced by `setup` with
channel count `c` — `readBlock` performs one driver read of exactly
`c × BufferSize` samples of 4 bytes with a 500 ms bounded wait, emits
its diagnostic exactly when the driver status is non-zero or fewer
bytes than requested were delivered, and returns the driver's status
code unchanged. -/
theorem readBlock_contract (envS envR : I2SEnv) (fs c b l dOut dIn e p : ℤ) :
    (AudioDriver.readBlock
        (AudioDriver.setup initStatics envS fs c b l dOut dIn e p).state envR).call
        = I2SCall.i2sRead (constrain p I2S_NUM_0 I2S_NUM_MAX)
            (c * AudioDriver.BufferSize * 4) 500 ∧
    (AudioDriver.readBlock
        (AudioDriver.setup initStatics envS fs c b l dOut dIn e p).state envR).status
        = envR.readStatus ∧
    ((AudioDriver.readBlock
        (AudioDriver.setup initStatics envS fs c b l dOut dIn e p).state envR).diagnostic
          = true ↔
      (envR.readStatus ≠ 0 ∨ (envR.readBytes : ℤ) < c * AudioDriver.BufferSize * 4)) := by
  refine ⟨rfl, rfl, ?_⟩
  simp [AudioDriver.readBlock, AudioDriver.setup]

/-- Witness for C6: with an all-zero oracle the status is passed through
and the short-read diagnostic fires (0 of 512 bytes delivered). -/
theorem readBlock_contract_witness :
    (AudioDriver.readBlock
        (AudioDriver.setup initStatics env0 48000 2 26 25 14 13 27 0).state env0).status
        = env0.readStatus ∧
    (AudioDriver.readBlock
        (AudioDriver.setup initStatics env0 48000 2 26 25 14 13 27 0).state env0).diagnostic
        = true :=
  ⟨(readBlock_contract env0 env0 48000 2 26 25 14 13 27 0).2.1,
    (readBlock_contract env0 env0 48000 2 26 25 14 13 27 0).2.2.mpr
      (Or.inr (by decide))⟩

/-- C7: `writeBlock` performs one driver write of exactly
`channelCount × BufferSize` samples of 4 bytes with a 500 ms bounded
wait, emits its diagnostic iff zero bytes were accepted (a partial
write of one or more bytes produces none), and returns the driver's raw
status. -/
theorem writeBlock_contract (st : AudioDriver) (envW : I2SEnv) :
    (AudioDriver.writeBlock st envW).call
        = I2SCall.i2sWrite st.i2sPort (st.channelCount * AudioDriver.BufferSize * 4) 500 ∧
    (AudioDriver.writeBlock st envW).status = envW.writeStatus ∧
    ((AudioDriver.writeBlock st envW).diagnostic = true ↔ envW.writeBytes = 0) := by
  refine ⟨rfl, rfl, ?_⟩
  simp [AudioDriver.writeBlock]

/-- Witness for C7: with an all-zero oracle (zero bytes accepted), the
status is passed through and the diagnostic fires. -/
theorem writeBlock_contract_witness :
    (AudioDriver.writeBlock
        (AudioDriver.setup initStatics env0 48000 2 26 25 14 13 27 0).state env0).status
        = env0.writeStatus ∧
    (AudioDriver.writeBlock
        (AudioDriver.setup initStatics env0 48000 2 26 25 14 13 27 0).state env0).diagnostic
        = true :=
  ⟨(writeBlock_contract _ env0).2.1, (writeBlock_contract _ env0).2.2.mpr rfl⟩

/-- C8: after `setup` with channel count `c ≥ 0`, both sample buffers
are zero-filled with exactly `c × BufferSize` entries; in the spec's
end-to-end scenario (`fs = 48000`, `c = 2`, `BufferSize = 64`) each
buffer holds 128 samples and one `readBlock`/`writeBlock` cycle requests
exactly 512 bytes in each direction. -/
theorem setup_allocates_buffers (envS envR envW : I2SEnv)
    (fs c b l dOut dIn e p : ℤ) (hc : 0 ≤ c) :
    ((AudioDriver.setup initStatics envS fs c b l dOut dIn e p).state.i2sReadBuffer
        = List.replicate (c * AudioDriver.BufferSize).toNat 0 ∧
     (AudioDriver.setup initStatics envS fs c b l dOut dIn e p).state.i2sWriteBuffer
        = List.replicate (c * AudioDriver.BufferSize).toNat 0 ∧
     (((AudioDriver.setup initStatics envS fs c b l dOut dIn e p).state.i2sReadBuffer.length : ℤ)
        = c * AudioDriver.BufferSize) ∧
     (((AudioDriver.setup initStatics envS fs c b l dOut dIn e p).state.i2sWriteBuffer.length : ℤ)
        = c * AudioDriver.BufferSize)) ∧
    ((AudioDriver.setup initStatics envS 48000 2 b l dOut dIn e p).state.i2sReadBuffer.length
        = 128 ∧
     (AudioDriver.setup initStatics envS 48000 2 b l dOut dIn e p).state.i2sWriteBuffer.length
        = 128 ∧
     (AudioDriver.readBlock
        (AudioDriver.setup initStatics envS 48000 2 b l dOut dIn e p).state envR).call
        = I2SCall.i2sRead (constrain p I2S_NUM_0 I2S_NUM_MAX) 512 500 ∧
     (AudioDriver.writeBlock
        (AudioDriver.setup initStatics envS 48000 2 b l dOut dIn e p).state envW).call
        = I2SCall.i2sWrite (constrain p I2S_NUM_0 I2S_NUM_MAX) 512 500) := by
  have hlen : ((AudioDriver.setup initStatics envS fs c b l dOut dIn e p).state.i2sReadBuffer.length : ℤ)
      = c * AudioDriver.BufferSize := by
    show ((List.replicate (c * AudioDriver.BufferSize).toNat (0 : ℤ)).length : ℤ)
        = c * AudioDriver.BufferSize
    rw [List.length_replicate]
    have : (0 : ℤ) ≤ c * AudioDriver.BufferSize := by
      have : AudioDriver.BufferSize = 64 := rfl
      nlinarith
    omega
  exact ⟨⟨rfl, rfl, hlen, hlen⟩, rfl, rfl, rfl, rfl⟩

/-- Witness for C8 at the spec scenario `c = 2`. -/
theorem setup_allocates_buffers_witness :
    (AudioDriver.setup initStatics env0 48000 2 26 25 14 13 27 0).state.i2sReadBuffer
        = List.replicate ((2 : ℤ) * AudioDriver.BufferSize).toNat 0 :=
  ((setup_allocates_buffers env0 env0 env0 48000 2 26 25 14 13 27 0 (by norm_num)).1).1

/-- C9: the function-local `static const` config and pin structs are
initialized by the first `setup` invocation only, so a second invocation
passes the first invocation's sample rate, master-clock rate
(`fs1 * 384`) and pin numbers to the install and pin-bind calls
regardless of its own arguments, while the new arguments reach only the
stored fields and the explicit `i2s_set_sample_rates` call. -/
theorem setup_static_config_fixed_by_first_call (env1 env2 : I2SEnv)
    (fs1 c1 b1 l1 o1 d1 e1 p1 fs2 c2 b2 l2 o2 d2 e2 p2 : ℤ) :
    (AudioDriver.setup (AudioDriver.setup initStatics env1 fs1 c1 b1 l1 o1 d1 e1 p1).statics
        env2 fs2 c2 b2 l2 o2 d2 e2 p2).calls =
      [ I2SCall.driverInstall (constrain p2 I2S_NUM_0 I2S_NUM_MAX)
          (mkI2sConfig fs1 (fs1 * 384))
      , I2SCall.setPin (constrain p2 I2S_NUM_0 I2S_NUM_MAX) ⟨b1, l1, o1, d1⟩
      , I2SCall.setSampleRates (constrain p2 I2S_NUM_0 I2S_NUM_MAX) fs2
      , I2SCall.zeroDmaBuffer (constrain p2 I2S_NUM_0 I2S_NUM_MAX) ] ∧
    (AudioDriver.setup (AudioDriver.setup initStatics env1 fs1 c1 b1 l1 o1 d1 e1 p1).statics
        env2 fs2 c2 b2 l2 o2 d2 e2 p2).state.fs = fs2 ∧
    (AudioDriver.setup (AudioDriver.setup initStatics env1 fs1 c1 b1 l1 o1 d1 e1 p1).statics
        env2 fs2 c2 b2 l2 o2 d2 e2 p2).state.channelCount = c2 ∧
    (AudioDriver.setup (AudioDriver.setup initStatics env1 fs1 c1 b1 l1 o1 d1 e1 p1).statics
        env2 fs2 c2 b2 l2 o2 d2 e2 p2).state.enablePin = e2 ∧
    (AudioDriver.setup (AudioDriver.setup initStatics env1 fs1 c1 b1 l1 o1 d1 e1 p1).statics
        env2 fs2 c2 b2 l2 o2 d2 e2 p2).statics
      = ⟨some (mkI2sConfig fs1 (fs1 * 384)), some ⟨b1, l1, o1, d1⟩⟩ :=
  ⟨rfl, rfl, rfl, rfl, rfl⟩

/-- C10: `readBlock` and `writeBlock` leave all configuration state
unchanged — sample rate, channel count, instance selector, enable pin,
buffer-size field — `readBlock` keeps the read buffer's length and
never touches the write buffer, and `writeBlock` modifies no object
state at all. -/
theorem blockIO_frame_condition (st : AudioDriver) (envR envW : I2SEnv) :
    ((AudioDriver.readBlock st envR).state.fs = st.fs ∧
     (AudioDriver.readBlock st envR).state.channelCount = st.channelCount ∧
     (AudioDriver.readBlock st envR).state.i2sPort = st.i2sPort ∧
     (AudioDriver.readBlock st envR).state.enablePin = st.enablePin ∧
     (AudioDriver.readBlock st envR).state.i2sBufferSize = st.i2sBufferSize ∧
     (AudioDriver.readBlock st envR).state.i2sWriteBuffer = st.i2sWriteBuffer ∧
     (AudioDriver.readBlock st envR).state.i2sReadBuffer.length
        = st.i2sReadBuffer.length) ∧
    (AudioDriver.writeBlock st envW).state = st := by
  refine ⟨⟨rfl, rfl, rfl, rfl, rfl, rfl, ?_⟩, rfl⟩
  show (overwriteFront st.i2sReadBuffer (envR.readData.take (envR.readBytes / 4))).length
      = st.i2sReadBuffer.length
  unfold overwriteFront
  simp
  omega
